import Mathlib

/-!
Verification of the Saxo-live OAuth2 token lifecycle scripts.

The repository's token/auth core lives in `src/opt/saxo_client.py`,
`src/opt/QQQ.py`, `src/opt/bot-token-dennik.py`, `src/api/get_saxo_token.py`
and `src/api/auth_code_flow.py`.  Below we give a shallow embedding of those
functions: the network, the clock and the random generator are passed in as
explicit parameters, JSON token bodies become records of optional fields, and
exceptions become `Except`-style results.  Each definition carries the name of
the Python function it embeds.
-/

set_option maxHeartbeats 1000000

namespace SaxoLive

/-- A JSON token body as the scripts read it: every field the logic touches is
optional, mirroring `dict.get` access.  `exp` is the absolute expiry stamp the
scripts add themselves (`data["exp"] = int(time.time()) + ...`). -/
structure TokenData where
  access_token : Option String := none
  refresh_token : Option String := none
  expires_in : Option Int := none
  exp : Option Int := none
  deriving Repr, DecidableEq

/-- One response of the token endpoint to a single POST attempt, as seen by
`urllib.request.urlopen`: a parsed 2xx JSON body, an `HTTPError` with a status
code, or any other exception (network error, timeout, bad JSON). -/
inductive TokenResp where
  | ok (body : TokenData)
  | httpError (code : Nat)
  | netError
  deriving Repr, DecidableEq

/-- The outcome of `saxo_client._refresh_token`: a token body returned after a
2xx response (with `exp` filled in), the immediate `RuntimeError` raised on a
4xx status, or the final `RuntimeError` raised after all attempts failed. -/
inductive RefreshResult where
  | success (data : TokenData)
  | authRejected (code : Nat)
  | transientFailure
  deriving Repr, DecidableEq

/-- The statement `data["exp"] = int(time.time()) + int(data.get("expires_in", 0))`
of saxo_client.py line 57, likewise QQQ.py lines 73 and 103. -/
def setExp (d : TokenData) (now : Int) : TokenData :=
  { d with exp := some (now + d.expires_in.getD 0) }

/-- A transient attempt outcome in `_refresh_token`: a non-4xx `HTTPError`
(5xx) or any other exception.  These set `last_exc` and fall through to the
backoff/retry logic instead of raising. -/
def TokenResp.transient : TokenResp → Prop
  | .ok _ => False
  | .httpError code => ¬ (400 ≤ code ∧ code < 500)
  | .netError => True

instance : DecidablePred TokenResp.transient := fun r =>
  match r with
  | .ok _ => inferInstanceAs (Decidable False)
  | .httpError _ => inferInstanceAs (Decidable (¬ _))
  | .netError => inferInstanceAs (Decidable True)

/-- The `for attempt in range(retries + 1)` loop of
`saxo_client._refresh_token` (lines 52-70), as structural recursion over the
list of remaining attempt indices.  `resp k` is what the k-th `urlopen` of
this invocation produces.  Returns the result, the number of attempts
actually made, and the list of sleeps (`backoff * 2 ** attempt`) performed
between attempts.  The `[]` case is the `raise RuntimeError(...)` after the
loop, reachable only with an empty range. -/
def refreshLoop (resp : Nat → TokenResp) (now : Int) (retries backoff : Nat) :
    List Nat → RefreshResult × Nat × List Nat
  | [] => (.transientFailure, 0, [])
  | attempt :: rest =>
    match resp attempt with
    | .ok body => (.success (setExp body now), 1, [])
    | .httpError code =>
        if 400 ≤ code ∧ code < 500 then
          (.authRejected code, 1, [])
        else if attempt < retries then
          let r := refreshLoop resp now retries backoff rest
          (r.1, r.2.1 + 1, backoff * 2 ^ attempt :: r.2.2)
        else
          (.transientFailure, 1, [])
    | .netError =>
        if attempt < retries then
          let r := refreshLoop resp now retries backoff rest
          (r.1, r.2.1 + 1, backoff * 2 ^ attempt :: r.2.2)
        else
          (.transientFailure, 1, [])

/-- Embeds `saxo_client._refresh_token(refresh_tok)` with its default arguments
`retries = 2`, `backoff = 1.0`: at most three attempts against the token
endpoint, with backoff sleep between them. -/
def refreshRun (resp : Nat → TokenResp) (now : Int) : RefreshResult × Nat × List Nat :=
  refreshLoop resp now 2 1 (List.range (2 + 1))

/-- Exceptions that can escape `get_valid_token` / `_request`:
`noToken` is the `RuntimeError` for a missing/falsy token file, `keyError` a
Python `KeyError` on a missing dict key, `authRejected` and
`transientFailure` the two `RuntimeError`s of `_refresh_token`, `httpError`
the re-raised `RuntimeError(f"HTTP {e.code} ...")` of `_request`, `netError`
an uncaught non-`HTTPError` exception from `urlopen`. -/
inductive ReqErr where
  | noToken
  | keyError
  | authRejected (code : Nat)
  | transientFailure
  | httpError (code : Nat)
  | netError
  | noAccessToken
  deriving Repr, DecidableEq

/-- Embeds `saxo_client.get_valid_token()` (lines 73-93).  The store argument is what
`_load_token()` yields: `none` for a missing file or falsy value.  `resp k`
is the token endpoint's answer to attempt `k` of the (at most one) refresher
invocation.  Returns the python return/raise, the store contents afterwards,
and how many times `_refresh_token` was invoked. -/
def get_valid_token (now : Int) (resp : Nat → TokenResp) (store : Option TokenData) :
    Except ReqErr TokenData × Option TokenData × Nat :=
  match store with
  | none => (.error .noToken, none, 0)
  | some tok0 =>
    -- `if "exp" not in tok: tok["exp"] = now + int(tok.get("expires_in", 0))`
    let tok := if tok0.exp = none then
        { tok0 with exp := some (now + tok0.expires_in.getD 0) } else tok0
    if now < tok.exp.getD 0 - 30 then
      -- still valid: returned as-is, the file is not rewritten
      (.ok tok, store, 0)
    else
      match tok.refresh_token with
      | none => (.error .keyError, store, 0)
      | some rt =>
        match (refreshRun resp now).1 with
        | .success data =>
          -- keep old refresh_token if the server did not return a new one
          let refreshed := if data.refresh_token = none then
              { data with refresh_token := some rt } else data
          (.ok refreshed, some refreshed, 1)
        | .authRejected c => (.error (.authRejected c), store, 1)
        | .transientFailure => (.error .transientFailure, store, 1)

/-- One answer of an OpenAPI endpoint to a dispatched request: an HTTP
response with its status code and (decoded JSON) body, or a network-level
exception. -/
inductive ApiResp where
  | resp (status : Nat) (body : String)
  | netError
  deriving Repr, DecidableEq

/-- Embeds `saxo_client._request(..., retry=False)`: the retried call.  `resp` feeds
the refresher invocation that `get_valid_token` may perform.  `urlopen`
raises `HTTPError` for any status ≥ 400; with `retry=False` that always
becomes the re-raised `RuntimeError`.  Returns the result, the final store,
and the pair (refresher invocations, API requests actually sent). -/
def requestOnce (now : Int) (resp : Nat → TokenResp) (api : ApiResp)
    (store : Option TokenData) :
    Except ReqErr String × Option TokenData × Nat × Nat :=
  match get_valid_token now resp store with
  | (.error e, st, rc) => (.error e, st, rc, 0)
  | (.ok tok, st, rc) =>
    match tok.access_token with
    | none => (.error .keyError, st, rc, 0)
    | some _ =>
      match api with
      | .netError => (.error .netError, st, rc, 1)
      | .resp status body =>
        if 400 ≤ status then (.error (.httpError status), st, rc, 1)
        else (.ok body, st, rc, 1)

/-- Embeds `saxo_client._request(method, url, ..., retry=True)` (lines 106-135).
`refresh i k` is the token endpoint's answer to attempt `k` of refresher
invocation `i` (the invocation inside `get_valid_token` comes first, then the
one of the 401 branch, then the one of the retried call's `get_valid_token`).
`api j` answers the j-th API request of this dispatch.  On a first 401 the
code does `_save_token(_refresh_token(token_obj["refresh_token"]))` — note
it stores the raw refresh response — and re-runs once with `retry=False`. -/
def request (now : Int) (refresh : Nat → Nat → TokenResp) (api : Nat → ApiResp)
    (store : Option TokenData) :
    Except ReqErr String × Option TokenData × Nat × Nat :=
  match get_valid_token now (refresh 0) store with
  | (.error e, st, rc) => (.error e, st, rc, 0)
  | (.ok tok, st, rc) =>
    match tok.access_token with
    | none => (.error .keyError, st, rc, 0)
    | some _ =>
      match api 0 with
      | .netError => (.error .netError, st, rc, 1)
      | .resp status body =>
        if 400 ≤ status then
          if status = 401 then
            match tok.refresh_token with
            | none => (.error .keyError, st, rc, 1)
            | some _ =>
              match (refreshRun (refresh rc) now).1 with
              | .success data =>
                let st2 : Option TokenData := some data
                let r2 := requestOnce now (refresh (rc + 1)) (api 1) st2
                (r2.1, r2.2.1, rc + 1 + r2.2.2.1, 1 + r2.2.2.2)
              | .authRejected c => (.error (.authRejected c), st, rc + 1, 1)
              | .transientFailure => (.error .transientFailure, st, rc + 1, 1)
          else (.error (.httpError status), st, rc, 1)
        else (.ok body, st, rc, 1)

/-- Embeds `QQQ.refresh_token(refresh_tok)` (QQQ.py lines 91-104): a single POST, no
retry; a 2xx body gets `exp = now + token.get("expires_in", 0)`. -/
def qqq_refresh_token (resp : TokenResp) (now : Int) : Except ReqErr TokenData :=
  match resp with
  | .ok body => .ok (setExp body now)
  | .httpError c => .error (.httpError c)
  | .netError => .error .netError

/-- Embeds `QQQ.exchange_code_for_token(code)` (QQQ.py lines 59-74): a single POST
of the authorization code; a 2xx body gets
`exp = now + token.get("expires_in", 0)`. -/
def qqq_exchange_code_for_token (resp : TokenResp) (now : Int) :
    Except ReqErr TokenData :=
  match resp with
  | .ok body => .ok (setExp body now)
  | .httpError c => .error (.httpError c)
  | .netError => .error .netError

/-- Embeds `QQQ.get_valid_token()` (QQQ.py lines 107-123): uses
`tok.get("exp", 0)` (no in-place exp filling), refreshes via
`QQQ.refresh_token`, keeps the old `refresh_token` if the response omits one,
and saves. -/
def qqq_get_valid_token (now : Int) (resp : TokenResp) (store : Option TokenData) :
    Except ReqErr TokenData × Option TokenData × Nat :=
  match store with
  | none => (.error .noToken, none, 0)
  | some tok =>
    if now < tok.exp.getD 0 - 30 then (.ok tok, store, 0)
    else
      match tok.refresh_token with
      | none => (.error .keyError, store, 0)
      | some rt =>
        match qqq_refresh_token resp now with
        | .error e => (.error e, store, 1)
        | .ok data =>
          let refreshed := if data.refresh_token = none then
              { data with refresh_token := some rt } else data
          (.ok refreshed, some refreshed, 1)

/-! ### Callback listeners -/

/-- An incoming HTTP GET at a callback listener, after `urllib.parse.parse_qs`
of its query string: `code`/`state` are `none` when the parameter is absent
or blank (`parse_qs` drops blank values by default). -/
structure HRequest where
  path : String
  code : Option String
  state : Option String
  deriving Repr, DecidableEq

/-- The observable effect of one `do_GET` of `QQQ.OAuthHandler`
(QQQ.py lines 25-48): the response status, the assignment to
`self.server.code` (`none` = untouched, `some v` = assigned `v`), and whether
`self.server.event.set()` was called. -/
structure QQQHandlerOut where
  status : Nat
  serverCode : Option (Option String)
  eventSet : Bool
  deriving Repr, DecidableEq

/-- Embeds `QQQ.OAuthHandler.do_GET`, with `genState` the module-level
`state = secrets.token_urlsafe(16)` value.  Note that BOTH branches of the
callback path call `self.server.event.set()`. -/
def qqq_do_GET (genState : String) (req : HRequest) : QQQHandlerOut :=
  if req.path ≠ "/callback" then
    { status := 404, serverCode := none, eventSet := false }
  else if req.state ≠ some genState ∨ req.code = none then
    { status := 400, serverCode := some none, eventSet := true }
  else
    { status := 200, serverCode := some req.code, eventSet := true }

/-- The main-flow wait of QQQ.py (lines 141-151), sequentialised: requests
are handled in arrival order until one sets the event; `httpd.event.wait`
then returns and main checks `if not waited or not httpd.code: sys.exit(1)`.
The result is the authorization code main proceeds with, `none` meaning the
run exits in failure (timeout with no event, or event set with `code=None`).
An empty remaining list models the 300 s timeout expiring. -/
def qqq_await (genState : String) : List HRequest → Option String
  | [] => none
  | r :: rest =>
    let out := qqq_do_GET genState r
    if out.eventSet then
      match out.serverCode with
      | some (some c) => some c
      | _ => none
    else qqq_await genState rest

/-- The observable effect of one `do_GET` of
`get_saxo_token.CallbackHandler` (get_saxo_token.py lines 53-66): response
status and the assignment to `self.server.code` (`some c` = the request was
accepted as the authorization code).  The handler checks only that a `code`
parameter is present: neither the path nor the `state` parameter is
examined. -/
def get_saxo_do_GET (req : HRequest) : Nat × Option String :=
  match req.code with
  | some c => (200, some c)
  | none => (400, none)

/-- Embeds `get_saxo_token.start_local_server` (lines 72-81): handle one request at
a time until `httpd.code` is non-None, then return it.  There is no timeout:
an exhausted list (no further request ever arrives) models the loop blocked
forever, returned as `none`. -/
def start_local_server : List HRequest → Option String
  | [] => none
  | r :: rest =>
    match (get_saxo_do_GET r).2 with
    | some c => some c
    | none => start_local_server rest

/-! ### Token persistence -/

/-- Filesystem operations a save routine performs, in order. -/
inductive FileOp where
  | write (path : String) (content : String)
  | rename (src dst : String)
  | chmod (path : String) (mode : Nat)
  | mkdirParents (path : String)
  deriving Repr, DecidableEq

/-- The token file path of saxo_client.py / QQQ.py
(`~/.ibkr_token.json`, home-expanded). -/
def ibkrTokenFile : String := ".ibkr_token.json"

/-- The path `TOKEN_FILE.with_suffix(".tmp")` in `saxo_client._save_token`. -/
def ibkrTokenTmp : String := ".ibkr_token.tmp"

/-- Embeds `saxo_client._save_token(data)` (lines 32-38): write the full record to
the `.tmp` sibling, `Path.replace` it over the token file, then
`chmod 0o600` (= 384). -/
def saxo_save_token_ops (content : String) : List FileOp :=
  [.write ibkrTokenTmp content,
   .rename ibkrTokenTmp ibkrTokenFile,
   .chmod ibkrTokenFile 384]

/-- Embeds `QQQ.save_token(data)` (QQQ.py lines 77-80): a single direct
`open(TOKEN_FILE, "w")` + `json.dump`. -/
def qqq_save_token_ops (content : String) : List FileOp :=
  [.write ibkrTokenFile content]

/-- Embeds `bot-token-dennik.save_token(data)` (lines 39-42): ensure the parent
directory exists, then write the file directly.  `tokenFile` is the
config-supplied path. -/
def bot_save_token_ops (tokenFile : String) (content : String) : List FileOp :=
  [.mkdirParents tokenFile, .write tokenFile content]

/-- The spec's words for `save(record)` ("write to a temporary location,
then rename into place, then restrict permissions"): the trace writes the
full content to some other path, renames it onto the target, and chmods the
target. -/
def AtomicSave (target content : String) (ops : List FileOp) : Prop :=
  ∃ tmp mode, tmp ≠ target ∧
    ops = [.write tmp content, .rename tmp target, .chmod target mode]

/-- What a load routine finds in the token file. -/
inductive FileState (α : Type) where
  | missing
  | malformed
  | valid (t : α)
  deriving Repr, DecidableEq

/-- Embeds `saxo_client._load_token()` (lines 23-30): `none` for a missing file,
`some t` for a parsed record, and a raised `RuntimeError` (the `.error`
case) for any other failure — malformed JSON included. -/
def saxo_load_token : FileState TokenData → Except Unit (Option TokenData)
  | .missing => .ok none
  | .malformed => .error ()
  | .valid t => .ok (some t)

/-! ### Authorize URLs and the `state` parameter -/

/-- QQQ.py line 21: `state = secrets.token_urlsafe(16)`.  The draw of the
system randomness is injected as `rnd`; the module-level value is exactly
that draw. -/
def qqq_state (rnd : String) : String := rnd

/-- The `auth_params` dict of `QQQ.main` (lines 129-135). -/
def qqq_auth_params (clientId redirectUri scope rnd : String) :
    List (String × String) :=
  [("response_type", "code"), ("client_id", clientId),
   ("redirect_uri", redirectUri), ("scope", scope),
   ("state", qqq_state rnd)]

/-- Embeds `get_saxo_token.build_auth_url()` (lines 38-46): the query parameters of
the authorize URL.  The function draws no randomness; `state` is the string
literal written in the source. -/
def get_saxo_build_auth_url_params (clientId redirectUri : String) :
    List (String × String) :=
  [("response_type", "code"), ("client_id", clientId),
   ("redirect_uri", redirectUri),
   ("scope", "openid profile email trading"),
   ("state", "saxo_demo_state_123")]

/-- Embeds `auth_code_flow.build_auth_url()` (lines 41-49): likewise a fixed
literal `state`. -/
def auth_code_flow_build_auth_url_params (clientId redirectUri : String) :
    List (String × String) :=
  [("response_type", "code"), ("client_id", clientId),
   ("redirect_uri", redirectUri),
   ("scope", "openid profile email trading"),
   ("state", "test_state_123")]

/-- The `state` entry of an authorize-URL parameter list. -/
def paramState (ps : List (String × String)) : Option String :=
  (ps.find? (fun p => p.1 = "state")).map (fun p => p.2)

/-! ### bot-token-dennik.py -/

/-- A token dict of bot-token-dennik.py: same optional-field reading, but the
absolute expiry lives under the key `expiry_ts`. -/
structure BotToken where
  access_token : Option String := none
  refresh_token : Option String := none
  expires_in : Option Int := none
  expiry_ts : Option Int := none
  deriving Repr, DecidableEq

/-- Embeds `bot-token-dennik.load_token()` (lines 44-52): a missing file gives `{}`,
a malformed one logs a warning and gives `{}`, otherwise the parsed dict.
The `Bool` records whether the malformed-file warning was logged. -/
def bot_load_token : FileState BotToken → BotToken × Bool
  | .missing => ({}, false)
  | .malformed => ({}, true)
  | .valid t => (t, false)

/-- The JWT fallback of `token_is_valid` (lines 65-74):
`jwtExp a` models `jwt.decode(a, verify_signature=False).get("exp")`, with
`none` for a decode failure or a missing claim.  Python's
`bool(exp and int(exp) > now)` makes a zero claim falsy. -/
def jwt_exp_check (jwtExp : String → Option Int) (now : Int) (t : BotToken) :
    Bool :=
  match t.access_token with
  | none => false
  | some a =>
    match jwtExp a with
    | some e => if e ≠ 0 then decide (e > now) else false
    | none => false

/-- Embeds `bot-token-dennik.token_is_valid(token_data)` (lines 54-74): a truthy
(present, non-zero) `expiry_ts` decides via `expiry_ts > now`; otherwise fall
back to decoding the JWT `exp` claim of the access token. -/
def token_is_valid (jwtExp : String → Option Int) (now : Int) (t : BotToken) :
    Bool :=
  match t.expiry_ts with
  | some ts => if ts ≠ 0 then decide (ts > now) else jwt_exp_check jwtExp now t
  | none => jwt_exp_check jwtExp now t

/-- One answer of the token endpoint to `requests.post` in
`obtain_new_access`: a 2xx JSON body, an error status (`raise_for_status`
raises), or a network exception. -/
inductive BotResp where
  | ok (body : BotToken)
  | httpError (code : Nat)
  | netError
  deriving Repr, DecidableEq

/-- Embeds `bot-token-dennik.obtain_new_access(refresh_token)` (lines 82-111): one
POST with `refresh_token or REFRESH_TOKEN` (the config value `cfgRT`), raise
on error status, add `expiry_ts = now + expires_in` when the body has
`expires_in`, then `save_token(data)` — the raw response body is saved, old
fields are not merged in.  Returns the result, the store afterwards, and the
refresh token that was sent. -/
def obtain_new_access (cfgRT : String) (now : Int) (resp : BotResp)
    (rt : Option String) (store : Option BotToken) :
    Except ReqErr BotToken × Option BotToken × String :=
  let used := rt.getD cfgRT
  match resp with
  | .httpError c => (.error (.httpError c), store, used)
  | .netError => (.error .netError, store, used)
  | .ok body =>
    let data := match body.expires_in with
      | some ei => { body with expiry_ts := some (now + ei) }
      | none => body
    (.ok data, some data, used)

/-- The access `token_data.get("access_token")` followed by
`if not access: raise RuntimeError(...)` (lines 128-131). -/
def bot_access_of (t : BotToken) : Except ReqErr String :=
  match t.access_token with
  | some a => .ok a
  | none => .error .noAccessToken

/-- Embeds `bot-token-dennik.get_valid_token()` (lines 113-131): load; if the token
is invalid or missing, `obtain_new_access()` — with the CONFIG refresh token;
if valid but less than 300 s remain, proactively
`obtain_new_access(token_data.get("refresh_token"))`.  `store = none` models
a missing file (the load then yields `{}`).  Returns the access token, the
store afterwards, and the number of `obtain_new_access` network calls. -/
def bot_get_valid_token (cfgRT : String) (jwtExp : String → Option Int)
    (now : Int) (resp : BotResp) (store : Option BotToken) :
    Except ReqErr String × Option BotToken × Nat :=
  let td0 := (bot_load_token (match store with
    | none => .missing
    | some t => .valid t)).1
  if ¬ token_is_valid jwtExp now td0 then
    match obtain_new_access cfgRT now resp none store with
    | (.error e, st, _) => (.error e, st, 1)
    | (.ok data, st, _) => (bot_access_of data, st, 1)
  else
    if td0.expiry_ts.getD 0 - now < 300 then
      match obtain_new_access cfgRT now resp td0.refresh_token store with
      | (.error e, st, _) => (.error e, st, 1)
      | (.ok data, st, _) => (bot_access_of data, st, 1)
    else (bot_access_of td0, store, 0)

/-- Embeds `bot-token-dennik.example_api_call()` (lines 134-155): get a token, GET
once; on a 401 invalidate the stored token, get a fresh one (which refreshes,
the file being gone) and GET exactly once more; any remaining error status
raises via `raise_for_status`.  `resp i` feeds the i-th `obtain_new_access`
call, `api j` the j-th API request.  Returns the result, the final store and
the pair (token-endpoint calls, API requests). -/
def example_api_call (cfgRT : String) (jwtExp : String → Option Int)
    (now : Int) (resp : Nat → BotResp) (api : Nat → ApiResp)
    (store : Option BotToken) :
    Except ReqErr String × Option BotToken × Nat × Nat :=
  match bot_get_valid_token cfgRT jwtExp now (resp 0) store with
  | (.error e, st, rc) => (.error e, st, rc, 0)
  | (.ok _, st, rc) =>
    match api 0 with
    | .netError => (.error .netError, st, rc, 1)
    | .resp status body =>
      if status = 401 then
        -- invalidate_token(): the stored file is unlinked
        match bot_get_valid_token cfgRT jwtExp now (resp rc) none with
        | (.error e, st3, rc2) => (.error e, st3, rc + rc2, 1)
        | (.ok _, st3, rc2) =>
          match api 1 with
          | .netError => (.error .netError, st3, rc + rc2, 2)
          | .resp status2 body2 =>
            if 400 ≤ status2 then (.error (.httpError status2), st3, rc + rc2, 2)
            else (.ok body2, st3, rc + rc2, 2)
      else if 400 ≤ status then (.error (.httpError status), st, rc, 1)
      else (.ok body, st, rc, 1)

/-! ## Unfolding lemmas for the refresh loop -/

theorem refreshLoop_ok_stop (resp : Nat → TokenResp) (now : Int)
    (retries backoff attempt : Nat) (rest : List Nat) (body : TokenData)
    (h : resp attempt = .ok body) :
    refreshLoop resp now retries backoff (attempt :: rest) =
      (.success (setExp body now), 1, []) := by
  rw [refreshLoop, h]

theorem refreshLoop_client_stop (resp : Nat → TokenResp) (now : Int)
    (retries backoff attempt : Nat) (rest : List Nat) (c : Nat)
    (h : resp attempt = .httpError c) (h4 : 400 ≤ c) (h5 : c < 500) :
    refreshLoop resp now retries backoff (attempt :: rest) =
      (.authRejected c, 1, []) := by
  rw [refreshLoop, h]
  simp [h4, h5]

theorem refreshLoop_transient_step (resp : Nat → TokenResp) (now : Int)
    (retries backoff attempt : Nat) (rest : List Nat)
    (h : (resp attempt).transient) (hlt : attempt < retries) :
    refreshLoop resp now retries backoff (attempt :: rest) =
      ((refreshLoop resp now retries backoff rest).1,
       (refreshLoop resp now retries backoff rest).2.1 + 1,
       backoff * 2 ^ attempt ::
         (refreshLoop resp now retries backoff rest).2.2) := by
  rw [refreshLoop]
  rcases hr : resp attempt with body | code | _
  · rw [hr] at h; exact absurd h (by simp [TokenResp.transient])
  · rw [hr] at h
    simp only [TokenResp.transient] at h
    simp [h, hlt]
  · simp [hlt]

theorem refreshLoop_transient_last (resp : Nat → TokenResp) (now : Int)
    (retries backoff attempt : Nat) (rest : List Nat)
    (h : (resp attempt).transient) (hge : ¬ attempt < retries) :
    refreshLoop resp now retries backoff (attempt :: rest) =
      (.transientFailure, 1, []) := by
  rw [refreshLoop]
  rcases hr : resp attempt with body | code | _
  · rw [hr] at h; exact absurd h (by simp [TokenResp.transient])
  · rw [hr] at h
    simp only [TokenResp.transient] at h
    simp [h, hge]
  · simp [hge]

theorem refreshLoop_numAttempts_le (resp : Nat → TokenResp) (now : Int)
    (retries backoff : Nat) : ∀ l : List Nat,
    (refreshLoop resp now retries backoff l).2.1 ≤ l.length := by
  intro l
  induction l with
  | nil => simp [refreshLoop]
  | cons attempt rest ih =>
    rcases hr : resp attempt with body | code | _
    · rw [refreshLoop_ok_stop resp now retries backoff attempt rest body hr]
      simp
    · by_cases hc : 400 ≤ code ∧ code < 500
      · rw [refreshLoop_client_stop resp now retries backoff attempt rest code hr
          hc.1 hc.2]
        simp
      · have ht : (resp attempt).transient := by
          rw [hr]; simpa [TokenResp.transient] using hc
        by_cases hlt : attempt < retries
        · rw [refreshLoop_transient_step resp now retries backoff attempt rest ht hlt]
          simp only [List.length_cons]
          omega
        · rw [refreshLoop_transient_last resp now retries backoff attempt rest ht hlt]
          simp
    · have ht : (resp attempt).transient := by rw [hr]; trivial
      by_cases hlt : attempt < retries
      · rw [refreshLoop_transient_step resp now retries backoff attempt rest ht hlt]
        simp only [List.length_cons]
        omega
      · rw [refreshLoop_transient_last resp now retries backoff attempt rest ht hlt]
        simp

theorem range_three_eq : List.range (2 + 1) = [0, 1, 2] := by decide

/-! ## C1 -/

/-- C1: `_refresh_token` never makes a fourth attempt; a 4xx response at any
attempt fails immediately with the AuthRejected `RuntimeError` and no further
attempt or sleep; network errors and 5xx responses are retried with sleeps of
1 s then 2 s (exponentially doubling backoff from 1 s), and after three such
failed attempts the TransientFailure `RuntimeError` surfaces. -/
theorem c1_refresh_retry_policy (resp : Nat → TokenResp) (now : Int) :
    (refreshRun resp now).2.1 ≤ 3
    ∧ (∀ c, resp 0 = .httpError c → 400 ≤ c → c < 500 →
        refreshRun resp now = (.authRejected c, 1, []))
    ∧ (∀ c, (resp 0).transient → resp 1 = .httpError c → 400 ≤ c → c < 500 →
        refreshRun resp now = (.authRejected c, 2, [1]))
    ∧ (∀ c, (resp 0).transient → (resp 1).transient → resp 2 = .httpError c →
        400 ≤ c → c < 500 →
        refreshRun resp now = (.authRejected c, 3, [1, 2]))
    ∧ ((resp 0).transient → (resp 1).transient → (resp 2).transient →
        refreshRun resp now = (.transientFailure, 3, [1, 2])) := by
  refine ⟨?_, ?_, ?_, ?_, ?_⟩
  · simpa using refreshLoop_numAttempts_le resp now 2 1 (List.range (2 + 1))
  · intro c h h4 h5
    unfold refreshRun
    rw [range_three_eq, refreshLoop_client_stop resp now 2 1 0 [1, 2] c h h4 h5]
  · intro c h0 h1 h4 h5
    unfold refreshRun
    rw [range_three_eq,
      refreshLoop_transient_step resp now 2 1 0 [1, 2] h0 (by norm_num),
      refreshLoop_client_stop resp now 2 1 1 [2] c h1 h4 h5]
    norm_num
  · intro c h0 h1 h2' h4 h5
    unfold refreshRun
    rw [range_three_eq,
      refreshLoop_transient_step resp now 2 1 0 [1, 2] h0 (by norm_num),
      refreshLoop_transient_step resp now 2 1 1 [2] h1 (by norm_num),
      refreshLoop_client_stop resp now 2 1 2 [] c h2' h4 h5]
    norm_num
  · intro h0 h1 h2'
    unfold refreshRun
    rw [range_three_eq,
      refreshLoop_transient_step resp now 2 1 0 [1, 2] h0 (by norm_num),
      refreshLoop_transient_step resp now 2 1 1 [2] h1 (by norm_num),
      refreshLoop_transient_last resp now 2 1 2 [] h2' (by norm_num)]
    norm_num

/-- Witness for C1: with every attempt a network error, the refresher makes
exactly three attempts, sleeps 1 s and 2 s, and fails transiently. -/
theorem c1_refresh_retry_policy_witness :
    refreshRun (fun _ => .netError) 0 = (.transientFailure, 3, [1, 2]) :=
  (c1_refresh_retry_policy (fun _ => .netError) 0).2.2.2.2 trivial trivial trivial

/-! ## C4 -/

/-- C4: with a stored record whose expiry is more than 30 s after now,
`get_valid_token` returns the record unchanged with no refresher invocation;
with an expiry within (or past) the margin it invokes `_refresh_token`
exactly once, and on success returns and stores the refreshed record. -/
theorem c4_dispatch_expiry_margin (now : Int) (resp : Nat → TokenResp)
    (tok : TokenData) (e : Int) (he : tok.exp = some e) :
    (now + 30 < e →
      get_valid_token now resp (some tok) = (.ok tok, some tok, 0))
    ∧ (e ≤ now + 30 → ∀ rt, tok.refresh_token = some rt →
        (get_valid_token now resp (some tok)).2.2 = 1
        ∧ ∀ d, (refreshRun resp now).1 = .success d →
            get_valid_token now resp (some tok) =
              (.ok (if d.refresh_token = none then
                      { d with refresh_token := some rt } else d),
               some (if d.refresh_token = none then
                      { d with refresh_token := some rt } else d),
               1)) := by
  constructor
  · intro hgt
    have hcond : now < e - 30 := by omega
    simp [get_valid_token, he, hcond]
  · intro hle rt hrt
    have hcond : ¬ now < e - 30 := by omega
    constructor
    · simp only [get_valid_token, he, hcond]
      rcases hres : (refreshRun resp now).1 with d | c | _ <;>
        simp [he, hrt, hres, hcond]
    · intro d hd
      simp [get_valid_token, he, hcond, hrt, hd]

/-- Witness for C4: a record expiring at 2000 consulted at time 1000 is
returned as-is with no refresher invocation. -/
theorem c4_dispatch_expiry_margin_witness :
    get_valid_token 1000 (fun _ => .netError)
        (some { access_token := some "A", refresh_token := some "R",
                expires_in := none, exp := some 2000 }) =
      (.ok { access_token := some "A", refresh_token := some "R",
             expires_in := none, exp := some 2000 },
       some { access_token := some "A", refresh_token := some "R",
              expires_in := none, exp := some 2000 }, 0) :=
  (c4_dispatch_expiry_margin 1000 (fun _ => .netError) _ 2000 rfl).1 (by norm_num)

/-! ## C10 -/

/-- C10: a token-endpoint body lacking `expires_in` gets absolute expiry
`now + 0 = now` (both in `_refresh_token`/`QQQ.refresh_token` via `setExp`
and in `QQQ.exchange_code_for_token`), so the stored record is already
outside the 30-second margin and the next `get_valid_token` call invokes the
refresher; likewise a stored record lacking both `exp` and `expires_in` is
treated as expired. -/
theorem c10_missing_expires_in_defaults (now : Int) :
    (∀ d : TokenData, d.expires_in = none → (setExp d now).exp = some now)
    ∧ (∀ body : TokenData, body.expires_in = none →
        qqq_exchange_code_for_token (.ok body) now =
          .ok { body with exp := some now })
    ∧ (∀ (resp : Nat → TokenResp) (tok : TokenData) (t0 : Int) (rt : String),
        tok.exp = some t0 → t0 ≤ now → tok.refresh_token = some rt →
        (get_valid_token now resp (some tok)).2.2 = 1)
    ∧ (∀ (resp : Nat → TokenResp) (tok : TokenData) (rt : String),
        tok.exp = none → tok.expires_in = none → tok.refresh_token = some rt →
        (get_valid_token now resp (some tok)).2.2 = 1) := by
  refine ⟨?_, ?_, ?_, ?_⟩
  · intro d h
    simp [setExp, h]
  · intro body h
    simp only [qqq_exchange_code_for_token, setExp, h]
    simp
  · intro resp tok t0 rt he hle hrt
    have hcond : ¬ now < t0 - 30 := by omega
    simp only [get_valid_token, he, hcond]
    rcases hres : (refreshRun resp now).1 with d | c | _ <;>
      simp [he, hrt, hres, hcond]
  · intro resp tok rt he hei hrt
    have hcond : ¬ now < now - 30 := by omega
    simp only [get_valid_token, he, hei]
    rcases hres : (refreshRun resp now).1 with d | c | _ <;>
      simp [hrt, hres, hcond]

/-- Witness for C10: a refresh body with no `expires_in` expires at `now`
itself; a record with neither `exp` nor `expires_in` triggers a refresh. -/
theorem c10_missing_expires_in_defaults_witness :
    (setExp { access_token := some "A" } 500).exp = some 500
    ∧ (get_valid_token 500 (fun _ => .netError)
        (some { access_token := some "A", refresh_token := some "R" })).2.2 = 1 :=
  ⟨(c10_missing_expires_in_defaults 500).1 { access_token := some "A" } rfl,
   (c10_missing_expires_in_defaults 500).2.2.2 (fun _ => .netError)
     { access_token := some "A", refresh_token := some "R" } "R" rfl rfl rfl⟩

/-! ## C3 -/

theorem requestOnce_api_le (now : Int) (resp : Nat → TokenResp) (api : ApiResp)
    (store : Option TokenData) : (requestOnce now resp api store).2.2.2 ≤ 1 := by
  unfold requestOnce
  split
  · simp
  · split
    · simp
    · split
      · simp
      · split <;> simp

theorem request_api_le (now : Int) (refresh : Nat → Nat → TokenResp)
    (api : Nat → ApiResp) (store : Option TokenData) :
    (request now refresh api store).2.2.2 ≤ 2 := by
  unfold request
  split
  · simp
  · split
    · simp
    · split
      · simp
      · split
        · split
          · split
            · simp
            · split
              · exact Nat.add_le_add_left (requestOnce_api_le _ _ _ _) 1
              · simp
              · simp
          · simp
        · simp

theorem example_api_call_api_le (cfgRT : String) (jwtExp : String → Option Int)
    (now : Int) (resp : Nat → BotResp) (api : Nat → ApiResp)
    (store : Option BotToken) :
    (example_api_call cfgRT jwtExp now resp api store).2.2.2 ≤ 2 := by
  unfold example_api_call
  split
  · simp
  · split
    · simp
    · split
      · split
        · simp
        · split
          · simp
          · split <;> simp
      · split <;> simp

/-- C3: a dispatched call never sends a third API request; on a first 401
whose recovery refresh succeeds with a usable fresh token, the request is
re-executed exactly once, and a second 401 surfaces as the HTTP error with
exactly two requests sent — for both `saxo_client._request` and
`bot-token-dennik.example_api_call`. -/
theorem c3_single_401_retry (now : Int) (refresh : Nat → Nat → TokenResp)
    (api : Nat → ApiResp) (store : Option TokenData)
    (cfgRT : String) (jwtExp : String → Option Int)
    (bresp : Nat → BotResp) (bstore : Option BotToken) :
    (request now refresh api store).2.2.2 ≤ 2
    ∧ (∀ (tok : TokenData) st rc a rt (d : TokenData) e2 b0 b1 a2,
        get_valid_token now (refresh 0) store = (.ok tok, st, rc) →
        tok.access_token = some a →
        tok.refresh_token = some rt →
        api 0 = .resp 401 b0 →
        (refreshRun (refresh rc) now).1 = .success d →
        d.access_token = some a2 →
        d.exp = some e2 →
        now + 30 < e2 →
        api 1 = .resp 401 b1 →
        request now refresh api store =
          (.error (.httpError 401), some d, rc + 1, 2))
    ∧ (example_api_call cfgRT jwtExp now bresp api bstore).2.2.2 ≤ 2
    ∧ (∀ a st rc a2 st3 rc2 b0 b1,
        bot_get_valid_token cfgRT jwtExp now (bresp 0) bstore = (.ok a, st, rc) →
        api 0 = .resp 401 b0 →
        bot_get_valid_token cfgRT jwtExp now (bresp rc) none = (.ok a2, st3, rc2) →
        api 1 = .resp 401 b1 →
        example_api_call cfgRT jwtExp now bresp api bstore =
          (.error (.httpError 401), st3, rc + rc2, 2)) := by
  refine ⟨request_api_le now refresh api store, ?_,
    example_api_call_api_le cfgRT jwtExp now bresp api bstore, ?_⟩
  · intro tok st rc a rt d e2 b0 b1 a2 hgvt ha hrt hapi0 hrefresh hda he2 hfresh hapi1
    have hcond : now < e2 - 30 := by omega
    unfold request
    rw [hgvt]
    simp only [ha, hapi0, hrt, hrefresh]
    norm_num
    unfold requestOnce
    simp [get_valid_token, he2, hcond, hda, hapi1]
  · intro a st rc a2 st3 rc2 b0 b1 hg1 hapi0 hg2 hapi1
    unfold example_api_call
    rw [hg1]
    simp only [hapi0]
    norm_num
    rw [hg2]
    simp only [hapi1]
    norm_num

/-- Witness for C3: with a valid stored token, an API that answers 401 twice
and a refresh that succeeds, `_request` sends exactly two requests and
surfaces the 401. -/
theorem c3_single_401_retry_witness :
    request 0
        (fun _ _ => .ok { access_token := some "A2", refresh_token := some "R2",
                          expires_in := some 3600 })
        (fun _ => .resp 401 "b")
        (some { access_token := some "A", refresh_token := some "R",
                exp := some 1000 }) =
      (.error (.httpError 401),
       some { access_token := some "A2", refresh_token := some "R2",
              expires_in := some 3600, exp := some 3600 }, 1, 2)
    ∧ example_api_call "CRT" (fun _ => none) 0
        (fun _ => .ok { access_token := some "A2", refresh_token := some "R2",
                        expires_in := some 3600 })
        (fun _ => .resp 401 "b")
        (some { access_token := some "A", refresh_token := some "R",
                expiry_ts := some 1000 }) =
      (.error (.httpError 401),
       some { access_token := some "A2", refresh_token := some "R2",
              expires_in := some 3600, expiry_ts := some 3600 }, 1, 2) := by
  constructor
  · exact (c3_single_401_retry 0 _ _ _ "CRT" (fun _ => none) (fun _ => .ok {})
      none).2.1 _ _ 0 "A" "R" _ 3600 "b" "b" "A2"
      rfl rfl rfl rfl rfl rfl rfl (by norm_num) rfl
  · exact (c3_single_401_retry 0 (fun _ _ => .netError) _ none "CRT"
      (fun _ => none) _ _).2.2.2 "A" _ 0 "A2" _ 1 "b" "b" rfl rfl rfl rfl

/-! ## C2 -/

/-- C2 (code bug): the 401 recovery path of `saxo_client._request` persists
the raw refresh response (`_save_token(_refresh_token(...))`), so when that
response omits `refresh_token` the previously stored value is erased: with a
stored record holding refresh token "R", a first API answer of 401 and a
refresh body `{access_token: "A2", expires_in: 3600}`, the store afterwards
holds `refresh_token = none` — unlike `get_valid_token` and
`QQQ.get_valid_token`, which explicitly keep the old value. -/
theorem c2_refresh_token_erased_on_401_path :
    request 0 (fun _ _ => .ok { access_token := some "A2", expires_in := some 3600 })
        (fun j => if j = 0 then .resp 401 "b" else .resp 200 "ok")
        (some { access_token := some "A", refresh_token := some "R",
                exp := some 1000 }) =
      (.ok "ok", some { access_token := some "A2", refresh_token := none,
                        expires_in := some 3600, exp := some 3600 }, 1, 2) := by
  rfl

/-! ## C6 -/

/-- C6 (counterexample): `bot-token-dennik.get_valid_token` invoked with an
empty store does NOT fail before any network call — it performs one
`obtain_new_access` network call (using the config refresh token) and
returns its result. -/
theorem c6_counterexample :
    bot_get_valid_token "CRT" (fun _ => none) 0
        (.ok { access_token := some "A", expires_in := some 3600 }) none =
      (.ok "A", some { access_token := some "A", expires_in := some 3600,
                       expiry_ts := some 3600 }, 1) := by
  rfl

/-- C6 (amended): `saxo_client`'s dispatcher and `get_valid_token` fail with
the missing-token RuntimeError and zero network activity when the store is
empty; `bot-token-dennik.get_valid_token` instead always performs exactly one
`obtain_new_access` token-endpoint call on an empty store, sending the
config-file refresh token. -/
theorem c6_empty_store (now : Int) (refresh : Nat → Nat → TokenResp)
    (api : Nat → ApiResp) (cfgRT : String) (jwtExp : String → Option Int)
    (resp : BotResp) :
    request now refresh api none = (.error .noToken, none, 0, 0)
    ∧ get_valid_token now (refresh 0) none = (.error .noToken, none, 0)
    ∧ (bot_get_valid_token cfgRT jwtExp now resp none).2.2 = 1
    ∧ (obtain_new_access cfgRT now resp none none).2.2 = cfgRT := by
  refine ⟨rfl, rfl, ?_, ?_⟩
  · unfold bot_get_valid_token
    simp only [bot_load_token, token_is_valid, jwt_exp_check]
    rcases resp with body | c | _ <;> simp [obtain_new_access]
  · rcases resp with body | c | _ <;> simp [obtain_new_access]

/-! ## C5 -/

/-- C5 (counterexample): a callback with a wrong `state` (the generated value
being "G") and a present code sets the completion event in QQQ — the wait
terminates in failure at the first such request even though the genuine
redirect follows — and `get_saxo_token`'s handler accepts it outright as the
authorization code. -/
theorem c5_counterexample :
    (qqq_do_GET "G"
        { path := "/callback", code := some "c", state := some "X" }).eventSet = true
    ∧ qqq_await "G"
        [{ path := "/callback", code := some "c", state := some "X" },
         { path := "/callback", code := some "c", state := some "G" }] = none
    ∧ (get_saxo_do_GET
        { path := "/callback", code := some "evil", state := some "X" }).2 =
        some "evil"
    ∧ start_local_server
        [{ path := "/callback", code := some "evil", state := some "X" }] =
        some "evil" := by
  refine ⟨rfl, rfl, rfl, rfl⟩

/-- C5 (amended): in QQQ an invalid callback (wrong state or missing code) is
answered 400 and never stored as the code, but it sets the completion event,
so the wait ends in failure at the first such request instead of continuing;
a valid callback is answered 200 and accepted.  In get_saxo_token the state
parameter is never examined: any request carrying a code is accepted with
200 regardless of state, and only a missing-code request is answered 400
with the loop continuing to wait. -/
theorem c5_callback_handling (gs : String) (req : HRequest) :
    (req.path = "/callback" → (req.state ≠ some gs ∨ req.code = none) →
      qqq_do_GET gs req =
        { status := 400, serverCode := some none, eventSet := true })
    ∧ (req.path = "/callback" → req.state = some gs →
        ∀ c, req.code = some c →
        qqq_do_GET gs req =
          { status := 200, serverCode := some (some c), eventSet := true })
    ∧ (∀ rest, req.path = "/callback" →
        (req.state ≠ some gs ∨ req.code = none) →
        qqq_await gs (req :: rest) = none)
    ∧ (∀ c, req.code = some c → get_saxo_do_GET req = (200, some c))
    ∧ (req.code = none → get_saxo_do_GET req = (400, none)
        ∧ ∀ rest, start_local_server (req :: rest) = start_local_server rest) := by
  refine ⟨?_, ?_, ?_, ?_, ?_⟩
  · intro hp hbad
    simp [qqq_do_GET, hp, hbad]
  · intro hp hst c hc
    simp [qqq_do_GET, hp, hst, hc]
  · intro rest hp hbad
    simp [qqq_await, qqq_do_GET, hp, hbad]
  · intro c hc
    simp [get_saxo_do_GET, hc]
  · intro hc
    exact ⟨by simp [get_saxo_do_GET, hc], fun rest => by
      simp [start_local_server, get_saxo_do_GET, hc]⟩

/-- Witness for C5: concrete instances of the amended behaviour — an invalid
callback fails the QQQ wait, and get_saxo accepts a code with any state. -/
theorem c5_callback_handling_witness :
    qqq_await "G" [{ path := "/callback", code := none, state := some "G" }] = none
    ∧ get_saxo_do_GET { path := "/x", code := some "c", state := none } =
        (200, some "c") :=
  ⟨(c5_callback_handling "G"
      { path := "/callback", code := none, state := some "G" }).2.2.1 []
      rfl (Or.inr rfl),
   (c5_callback_handling "G"
      { path := "/x", code := some "c", state := none }).2.2.2.1 "c" rfl⟩

/-! ## C7 -/

/-- C7 (counterexample): `QQQ.save_token` is a single direct write of the
token file — not the write-temporary/rename/chmod sequence — so it does not
atomically replace the record. -/
theorem c7_counterexample :
    ¬ AtomicSave ibkrTokenFile "data" (qqq_save_token_ops "data") := by
  rintro ⟨tmp, mode, hne, heq⟩
  simp [qqq_save_token_ops] at heq

/-- C7 (amended): only `saxo_client._save_token` replaces the record
atomically (write to the `.tmp` sibling, rename into place, chmod 0o600);
`QQQ.save_token` and `bot-token-dennik.save_token` write the target file
directly with no temporary, rename, or permission restriction. -/
theorem c7_save_atomicity (content tokenFile : String) :
    AtomicSave ibkrTokenFile content (saxo_save_token_ops content)
    ∧ ¬ AtomicSave ibkrTokenFile content (qqq_save_token_ops content)
    ∧ ¬ AtomicSave tokenFile content (bot_save_token_ops tokenFile content) := by
  refine ⟨⟨ibkrTokenTmp, 384, by decide, rfl⟩, ?_, ?_⟩
  · rintro ⟨tmp, mode, hne, heq⟩
    simp [qqq_save_token_ops] at heq
  · rintro ⟨tmp, mode, hne, heq⟩
    simp [bot_save_token_ops] at heq

/-! ## C8 -/

/-- C8 (counterexample): `saxo_client._load_token` on a malformed token file
raises the fatal RuntimeError — it does not return the "absent" result. -/
theorem c8_counterexample :
    saxo_load_token .malformed = .error ()
    ∧ ∀ t, saxo_load_token .malformed ≠ .ok t := by
  exact ⟨rfl, fun t h => by simp [saxo_load_token] at h⟩

/-- C8 (amended): `bot-token-dennik.load_token` treats a malformed file as
absent (the empty dict) with a logged warning, exactly like a missing file
except for the warning; `saxo_client._load_token` treats only a missing file
as absent and raises a fatal RuntimeError on malformed content. -/
theorem c8_load_malformed :
    bot_load_token .malformed = ({}, true)
    ∧ bot_load_token .missing = ({}, false)
    ∧ (∀ t : BotToken, bot_load_token (.valid t) = (t, false))
    ∧ saxo_load_token .missing = .ok none
    ∧ saxo_load_token .malformed = .error ()
    ∧ (∀ t : TokenData, saxo_load_token (.valid t) = .ok (some t)) :=
  ⟨rfl, rfl, fun _ => rfl, rfl, rfl, fun _ => rfl⟩

/-! ## C9 -/

/-- C9 (counterexample): the authorize URLs of `get_saxo_token` and
`auth_code_flow` carry a fixed literal `state` — two distinct authorization
attempts (here with different client configuration) share the identical
constant value. -/
theorem c9_counterexample :
    paramState (get_saxo_build_auth_url_params "id1" "uri1") =
        some "saxo_demo_state_123"
    ∧ paramState (get_saxo_build_auth_url_params "id2" "uri2") =
        some "saxo_demo_state_123"
    ∧ paramState (auth_code_flow_build_auth_url_params "id1" "uri1") =
        some "test_state_123"
    ∧ paramState (auth_code_flow_build_auth_url_params "id2" "uri2") =
        some "test_state_123" := by
  refine ⟨rfl, rfl, rfl, rfl⟩

/-- C9 (amended): QQQ's authorize URL carries as `state` exactly the fresh
`secrets.token_urlsafe(16)` draw of that run, so distinct draws give distinct
state values; `get_saxo_token.build_auth_url` and
`auth_code_flow.build_auth_url` instead use the fixed literals
"saxo_demo_state_123" and "test_state_123", shared by every attempt. -/
theorem c9_state_freshness (clientId redirectUri scope rnd1 rnd2 : String)
    (hne : rnd1 ≠ rnd2) :
    paramState (qqq_auth_params clientId redirectUri scope rnd1) = some rnd1
    ∧ paramState (qqq_auth_params clientId redirectUri scope rnd1) ≠
        paramState (qqq_auth_params clientId redirectUri scope rnd2)
    ∧ paramState (get_saxo_build_auth_url_params clientId redirectUri) =
        some "saxo_demo_state_123"
    ∧ paramState (auth_code_flow_build_auth_url_params clientId redirectUri) =
        some "test_state_123" := by
  refine ⟨?_, ?_, ?_, ?_⟩
  · simp [paramState, qqq_auth_params, qqq_state, List.find?]
  · simp [paramState, qqq_auth_params, qqq_state, List.find?, hne]
  · simp [paramState, get_saxo_build_auth_url_params, List.find?]
  · simp [paramState, auth_code_flow_build_auth_url_params, List.find?]

/-- Witness for C9: two distinct random draws "a" and "b" yield distinct
`state` values in QQQ's authorize URL. -/
theorem c9_state_freshness_witness :
    paramState (qqq_auth_params "id" "uri" "openid profile" "a") = some "a"
    ∧ paramState (qqq_auth_params "id" "uri" "openid profile" "a") ≠
        paramState (qqq_auth_params "id" "uri" "openid profile" "b") :=
  ⟨(c9_state_freshness "id" "uri" "openid profile" "a" "b" (by decide)).1,
   (c9_state_freshness "id" "uri" "openid profile" "a" "b" (by decide)).2.1⟩

end SaxoLive
